import Mathlib

/-!
Shallow embedding of the Oracle Code Assist (OCA) token lifecycle manager
(OcaTokenManager and its helper formatOcaError), together with theorems that
settle the specification claims about it.

Conventions of the embedding:
* machine integers and epoch seconds are Int (JS numbers used integrally);
* millisecond jitter factors are rationals;
* fallible operations (network, secret storage, JSON parsing) are oracles of
  type Except String _ supplied through explicit environment records, so a
  theorem quantifying over the environment covers every outcome of the
  external world;
* asynchronous single-flight coordination and the HTTP listener are modelled
  as explicit state machines, mirroring the promise field and the server
  close/resolve sequence of the source.
-/

/-- The persisted authentication state (type TokenRecord of the source).
Every field is optional, exactly as in the source type. -/
structure TokenRecord where
  access_token : Option String := none
  refresh_token : Option String := none
  id_token : Option String := none
  token_type : Option String := none
  scope : Option String := none
  expires_in : Option Int := none
  expires_at : Option Int := none
deriving DecidableEq

/-- A token endpoint response (openid-client TokenEndpointResponse):
access_token and token_type are required, the rest optional. Note that the
response carries no absolute expiry field, only expires_in. -/
structure TokenEndpointResponse where
  access_token : String
  token_type : String
  refresh_token : Option String := none
  id_token : Option String := none
  scope : Option String := none
  expires_in : Option Int := none
deriving DecidableEq

/-- RENEW_TOKEN_BUFFER_SEC = 180 from the source. -/
def RENEW_TOKEN_BUFFER_SEC : Int := 180

/-- JS truthiness of an optional string: undefined and the empty string are
falsy (used by the source in double-negation and in plain if conditions). -/
def jsTruthyS : Option String → Bool
  | none => false
  | some s => s != ""

/-- isValid from the source: double-negation of t.expires_at (so an expiry of
0 counts as absent) and now strictly before expires_at minus the renew
buffer. -/
def isValid (t : TokenRecord) (now : Int) : Bool :=
  match t.expires_at with
  | none => false
  | some e => (e != 0) && decide (now < e - RENEW_TOKEN_BUFFER_SEC)

/-- The record built by tryRefresh from the refresh-grant response: the new
refresh_token falls back to the previous one when the response omits it, and
expires_at is now plus expires_in when expires_in is a number, otherwise the
previous expires_at. -/
def refreshNext (token : TokenRecord) (res : TokenEndpointResponse) (nowSec : Int) : TokenRecord :=
  { access_token := some res.access_token
    refresh_token := res.refresh_token.orElse (fun _ => token.refresh_token)
    id_token := res.id_token
    token_type := some res.token_type
    scope := res.scope
    expires_in := res.expires_in
    expires_at :=
      match res.expires_in with
      | some n => some (nowSec + n)
      | none => token.expires_at }

/-- The record built by runInteractiveLogin from the code-exchange response:
expires_at is now plus expires_in when expires_in is a number, otherwise
undefined. -/
def mkTokenSet (tokens : TokenEndpointResponse) (nowSec : Int) : TokenRecord :=
  { access_token := some tokens.access_token
    refresh_token := tokens.refresh_token
    id_token := tokens.id_token
    token_type := some tokens.token_type
    scope := tokens.scope
    expires_in := tokens.expires_in
    expires_at :=
      match tokens.expires_in with
      | some n => some (nowSec + n)
      | none => none }

/-- The fixed message of the Error thrown by discoveryWithRetry after all
attempts fail. -/
def discoveryFailureMessage : String :=
  "Only environment variable based proxy settings is supported. PAC/WPAD files (Ex: http://wpad/wpad.dat) are not supported in kilocode. Remove if any WPAD/PAC reference from your IDE proxy settings, restart the IDE, and try again. (Refer OCA Kilo troubleshooting guide.)"

/-- formatOcaError branch message for an EADDRINUSE-coded error. -/
def portInUseMessage : String :=
  "Login failed: local callback port is in use. Close other sign-in attempts or try again."

/-- formatOcaError branch message for network-looking errors. -/
def cannotReachMessage : String :=
  "Cannot reach Oracle IDCS. Check Proxy/Internet/VPN connectivity, follow OCA troubleshooting gudlines and try again."

/-- formatOcaError branch message for discovery-configuration-looking errors. -/
def discoverConfigMessage : String :=
  "Failed to discover identity configuration. Verify the IDCS URL and network connectivity."

/-- A JS error value as observed by formatOcaError and the port loop: its
optional code, optional message, optional error_description, and its string
coercion. -/
structure OcaError where
  code : Option String := none
  message : Option String := none
  error_description : Option String := none
  strRep : String := ""
deriving DecidableEq

/-- Substring test (used to embed String.prototype.includes). -/
def containsSub (s sub : String) : Bool := (s.splitOn sub).length != 1

/-- err.error_description, or err.message, or String(err) — picked by JS
truthiness as in the source. -/
def rawErrorText (e : OcaError) : String :=
  if jsTruthyS e.error_description then e.error_description.getD ""
  else if jsTruthyS e.message then e.message.getD ""
  else e.strRep

/-- formatOcaError from the source: EADDRINUSE first, then network-flavoured
substrings, then discovery-flavoured substrings, else the raw message. -/
def formatOcaError (e : OcaError) : String :=
  let msg := rawErrorText e
  let lower := msg.toLower
  if e.code == some "EADDRINUSE" then portInUseMessage
  else if containsSub lower "getaddrinfo" || containsSub lower "econnrefused" ||
      containsSub lower "network" || containsSub lower "fetch failed" ||
      containsSub lower "dns" then cannotReachMessage
  else if containsSub lower "openid-configuration" || containsSub lower "well-known" then
    discoverConfigMessage
  else msg

/-- The options record of discoveryWithRetry with its source defaults
(retries 3, base delay 500 ms, cap 2000 ms). -/
structure RetryOpts where
  retries : Nat := 3
  baseDelayMs : ℚ := 500
  maxDelayMs : ℚ := 2000

/-- The capped exponential backoff before jitter:
min(maxDelayMs, baseDelayMs * 2 ^ attempt). -/
def backoffMs (opts : RetryOpts) (attempt : Nat) : ℚ :=
  min opts.maxDelayMs (opts.baseDelayMs * 2 ^ attempt)

/-- The actual millisecond delay: Math.round(backoff * jitter). -/
def delayMs (opts : RetryOpts) (attempt : Nat) (jitter : ℚ) : Int :=
  round (backoffMs opts attempt * jitter)

/-- The retry loop of discoveryWithRetry, with the current attempt index and
the list of later attempt indices. Returns the inner outcome (the last error
when every attempt fails), the attempts that invoked the operation, and the
delays slept. On the last attempt an error breaks out with no further sleep. -/
def retryList (op : Nat → Except String α) (jit : Nat → ℚ) (opts : RetryOpts) :
    Nat → List Nat → Except String α × List Nat × List Int
  | attempt, [] => (op attempt, [attempt], [])
  | attempt, next :: rest =>
    match op attempt with
    | .ok a => (.ok a, [attempt], [])
    | .error _ =>
      let d := delayMs opts attempt (jit attempt)
      let r := retryList op jit opts next rest
      (r.1, attempt :: r.2.1, d :: r.2.2)

/-- The outward behaviour of discoveryWithRetry: result surfaced to the
caller (after total failure the thrown Error carries the fixed proxy-guidance
message, the last operation error being only logged), the logged last error,
the attempts made, and the delays slept. -/
structure RetryTrace (α : Type) where
  result : Except String α
  lastErr : Option String
  calls : List Nat
  delays : List Int

/-- discoveryWithRetry from the source: attempts 0 .. retries, exponential
backoff with jitter between attempts, and a fixed thrown message after the
final failure. -/
def discoveryWithRetry (op : Nat → Except String α) (jit : Nat → ℚ) (opts : RetryOpts) :
    RetryTrace α :=
  match retryList op jit opts 0 (List.range' 1 opts.retries) with
  | (.ok a, cs, ds) => ⟨.ok a, none, cs, ds⟩
  | (.error e, cs, ds) => ⟨.error discoveryFailureMessage, some e, cs, ds⟩

/-- The resolved OIDC provider metadata document, abstracted. -/
structure DiscoveryConfig where
  doc : String
deriving DecidableEq

/-- The environment of a silent refresh: the outcome of each discovery
network attempt, the jitter draws, the refresh-grant outcome, the secret
storage save outcome, and the clock at response time. -/
structure RefreshEnv where
  disc : Nat → Except String DiscoveryConfig
  jit : Nat → ℚ
  grant : DiscoveryConfig → Option String → Except String TokenEndpointResponse
  saveResult : Except String Unit
  now : Int

/-- The body of tryRefresh before its try/catch: discovery with retry, then
the refresh grant, then save. Also returns the discovery attempts made and
the number of refresh-grant calls. -/
def tryRefreshRun (token : TokenRecord) (renv : RefreshEnv) :
    Except String TokenRecord × List Nat × Nat :=
  let d := discoveryWithRetry renv.disc renv.jit {}
  match d.result with
  | .error e => (.error e, d.calls, 0)
  | .ok config =>
    match renv.grant config token.refresh_token with
    | .error e => (.error e, d.calls, 1)
    | .ok res =>
      let next := refreshNext token res renv.now
      match renv.saveResult with
      | .error e => (.error e, d.calls, 1)
      | .ok _ => (.ok next, d.calls, 1)

/-- tryRefresh from the source: the catch turns every failure of the body
into a null result (with logging), keeping the effect trace. -/
def tryRefresh (token : TokenRecord) (renv : RefreshEnv) :
    Option TokenRecord × List Nat × Nat :=
  match tryRefreshRun token renv with
  | (.ok t, cs, g) => (some t, cs, g)
  | (.error _, cs, g) => (none, cs, g)

/-- The environment of getValid: the secret storage read outcome, the JSON
parse outcome per stored string, the clock at the validity check, and the
refresh environment. -/
structure GetValidEnv where
  storeGet : Except String (Option String)
  parse : String → Except String TokenRecord
  now : Int
  refresh : RefreshEnv

/-- The body of load before its try/catch: read the secret store and parse
the stored JSON when present (an empty stored string is falsy and parses to
null). -/
def loadE (env : GetValidEnv) : Except String (Option TokenRecord) :=
  match env.storeGet with
  | .error e => .error e
  | .ok none => .ok none
  | .ok (some s) =>
    if s != "" then
      match env.parse s with
      | .error e => .error e
      | .ok t => .ok (some t)
    else .ok none

/-- load from the source: any failure of the body is caught and becomes a
null result. -/
def load (env : GetValidEnv) : Option TokenRecord :=
  match loadE env with
  | .ok v => v
  | .error _ => none

/-- The outcome of a getValid call: the returned value, the in-process cache
afterwards, the discovery network attempts made, and the number of
refresh-grant network calls made. -/
structure GetValidOut where
  result : Option TokenRecord
  cached : Option TokenRecord
  discCalls : List Nat
  grantCalls : Nat
deriving DecidableEq

/-- getValid from the source: use the cache, else load into the cache; a
valid token is returned as is; else, when a truthy refresh_token is present,
try a silent refresh (which updates the cache only on success); else null. -/
def getValid (cached : Option TokenRecord) (env : GetValidEnv) : GetValidOut :=
  let token : Option TokenRecord :=
    match cached with
    | some t => some t
    | none => load env
  match token with
  | none => ⟨none, none, [], 0⟩
  | some t =>
    if isValid t env.now then ⟨some t, some t, [], 0⟩
    else if jsTruthyS t.refresh_token then
      match tryRefresh t env.refresh with
      | (some r, cs, g) => ⟨some r, some r, cs, g⟩
      | (none, cs, g) => ⟨none, some t, cs, g⟩
    else ⟨none, some t, [], 0⟩

/-- The settled outcome of an interactive login task. -/
inductive LoginOutcome
  | success (t : TokenRecord)
  | failure (e : String)
deriving DecidableEq

/-- The shared mutable single-flight state of the manager: the identity of
the in-flight login task, if any, and the interactive flows started so far
(each entry is one invocation of runInteractiveLogin). -/
structure LoginFlightState where
  inflight : Option Nat
  started : List Nat
deriving DecidableEq

/-- What a loginWithoutAutoOpen call hands back: an existing valid record
immediately, or attachment to a login task whose outcome it will share. -/
inductive LoginCallResult
  | immediate (t : TokenRecord)
  | attached (taskId : Nat)
deriving DecidableEq

/-- loginWithoutAutoOpen from the source, evaluated after its getValid await
returned existing: an existing record returns immediately; otherwise a
present in-flight task is returned to the caller unchanged; otherwise a new
task is created and registered as in flight. -/
def loginWithoutAutoOpen (existing : Option TokenRecord) (s : LoginFlightState) :
    LoginCallResult × LoginFlightState :=
  match existing with
  | some t => (.immediate t, s)
  | none =>
    match s.inflight with
    | some id => (.attached id, s)
    | none =>
      let id := s.started.length
      (.attached id, ⟨some id, s.started ++ [id]⟩)

/-- The finally handler registered on the in-flight login promise: when the
task settles, the in-flight reference is cleared whatever the outcome is. -/
def settleInflight (s : LoginFlightState) (_outcome : LoginOutcome) : LoginFlightState :=
  ⟨none, s.started⟩

/-- The pathname of a request url (the part before the query string), as
computed by new URL(req.url, base).pathname for the urls involved. -/
def pathOf (u : String) : String := String.mk (u.data.takeWhile (fun c => c != '?'))

instance [DecidableEq ε] [DecidableEq α] : DecidableEq (Except ε α) := fun x y =>
  match x, y with
  | .error a, .error b =>
    if h : a = b then isTrue (h ▸ rfl) else isFalse (fun he => h (Except.error.inj he))
  | .ok a, .ok b =>
    if h : a = b then isTrue (h ▸ rfl) else isFalse (fun he => h (Except.ok.inj he))
  | .error _, .ok _ => isFalse (fun he => Except.noConfusion he)
  | .ok _, .error _ => isFalse (fun he => Except.noConfusion he)

/-- The lifecycle phase of the local callback server. -/
inductive ServerPhase
  | bound
  | closed
deriving DecidableEq

/-- The listener of one attemptOnPort invocation: the server phase and the
settled outcome of its promise (write-once). -/
structure ListenerModel where
  phase : ServerPhase
  settled : Option (Except String TokenEndpointResponse)
deriving DecidableEq

/-- Promise settlement is write-once: a later resolve or reject of an
already settled promise is a no-op. -/
def settleOnce : Option α → α → Option α
  | some a, _ => some a
  | none, a => some a

/-- The body sent to the browser on a successful code exchange. -/
def successPage : String := "Authentication successful! You can close this window."

/-- The body sent to the browser on a failed code exchange. -/
def failurePage : String := "Authentication failed."

/-- The observable outcome of one inbound request at the listener: the
listener afterwards, the HTTP response written (status and body), and
whether the code exchange was invoked. -/
structure HandleOut where
  listener : ListenerModel
  response : Option (Nat × String)
  exchangeCalled : Bool
deriving DecidableEq

/-- The http request handler of attemptOnPort: a closed server delivers no
request; a missing url or a non-callback path returns without responding; a
callback request runs the code exchange, answers 200 or 400, closes the
server, and settles the promise with the exchange outcome. -/
def handleRequest (exchange : String → Except String TokenEndpointResponse)
    (l : ListenerModel) (requrl : Option String) : HandleOut :=
  match l.phase with
  | .closed => ⟨l, none, false⟩
  | .bound =>
    match requrl with
    | none => ⟨l, none, false⟩
    | some u =>
      if pathOf u != "/callback" then ⟨l, none, false⟩
      else
        match exchange u with
        | .ok t => ⟨⟨.closed, settleOnce l.settled (.ok t)⟩, some (200, successPage), true⟩
        | .error err => ⟨⟨.closed, settleOnce l.settled (.error err)⟩, some (400, failurePage), true⟩

/-- The Error built by the server error handler for an address-in-use bind
failure (new Error with message Port in use and code EADDRINUSE). -/
def addrInUseReject : OcaError :=
  { code := some "EADDRINUSE", message := some "Port in use", strRep := "Error: Port in use" }

/-- What the server error handler does: whether it closed the server and
which error it rejects the attempt promise with. -/
structure BindFailureHandling where
  serverClosed : Bool
  rejectedWith : OcaError
deriving DecidableEq

/-- The server error handler of attemptOnPort: an EADDRINUSE bind failure
closes the partially open server and rejects with a fresh EADDRINUSE-coded
error; any other error is rejected as is (without a close there). -/
def onServerError (err : OcaError) : BindFailureHandling :=
  if err.code == some "EADDRINUSE" then ⟨true, addrInUseReject⟩ else ⟨false, err⟩

/-- The Error substituted when the port loop exhausts with a null last
error. -/
def noServerError : OcaError :=
  { message := some "Failed to start local callback server on any configured port"
    strRep := "Error: Failed to start local callback server on any configured port" }

/-- The outcome of the port fallback loop: the token response and bound port
on success or the formatted thrown message, plus the ports attempted. -/
structure PortLoopResult (α : Type) where
  outcome : Except String (α × Nat)
  tried : List Nat

/-- The port fallback loop of runInteractiveLogin: try each candidate port
in order; an EADDRINUSE rejection records the error and advances; any other
rejection throws the formatted error at once; exhaustion throws the
formatted last error (or the no-server fallback when no port was tried). -/
def portLoopGo (att : Nat → Except OcaError α) :
    List Nat → Option OcaError → PortLoopResult α
  | [], lastErr => ⟨.error (formatOcaError (lastErr.getD noServerError)), []⟩
  | p :: ps, _ =>
    match att p with
    | .ok t => ⟨.ok (t, p), [p]⟩
    | .error e =>
      if e.code == some "EADDRINUSE" then
        let r := portLoopGo att ps (some e)
        ⟨r.outcome, p :: r.tried⟩
      else ⟨.error (formatOcaError e), [p]⟩

/-- The port fallback loop started with a null last error. -/
def portLoop (att : Nat → Except OcaError α) (ports : List Nat) : PortLoopResult α :=
  portLoopGo att ports none

/-! Concrete sample data used by witnesses and counterexamples. -/

/-- A sample resolved discovery document. -/
def sampleConfig : DiscoveryConfig := ⟨"metadata-doc"⟩

/-- A token endpoint response that omits refresh_token and expires_in. -/
def sampleResponseBare : TokenEndpointResponse := { access_token := "A2", token_type := "Bearer" }

/-- A full token endpoint response. -/
def fullResponse : TokenEndpointResponse :=
  { access_token := "A2", token_type := "Bearer", refresh_token := some "R2"
    expires_in := some 3600 }

/-- A sample previously persisted record with a refresh token. -/
def sampleToken : TokenRecord :=
  { access_token := some "A1", refresh_token := some "R1", expires_at := some 100 }

/-- A refresh environment in which every external operation succeeds and the
grant answers with a response omitting refresh_token and expires_in. -/
def sampleRefreshEnv : RefreshEnv :=
  { disc := fun _ => .ok sampleConfig, jit := fun _ => 1
    grant := fun _ _ => .ok sampleResponseBare, saveResult := .ok (), now := 5000 }

/-- A refresh environment in which every external operation succeeds and the
grant answers with the full response. -/
def fullRefreshEnv : RefreshEnv :=
  { disc := fun _ => .ok sampleConfig, jit := fun _ => 1
    grant := fun _ _ => .ok fullResponse, saveResult := .ok (), now := 5000 }

/-- A discovery operation that fails on every attempt. -/
def alwaysBoom : Nat → Except String Unit := fun _ => .error "boom"

/-- A constant unit jitter draw. -/
def unitJit : Nat → ℚ := fun _ => 1

/-- A bind error with a code other than EADDRINUSE. -/
def otherBindErr : OcaError :=
  { code := some "EACCES", message := some "permission denied"
    strRep := "Error: permission denied" }

/-- A port attempt oracle whose every port is already in use. -/
def attAllInUse : Nat → Except OcaError Unit := fun _ => .error addrInUseReject

/-- A port attempt oracle failing with a non-EADDRINUSE error. -/
def attOtherErr : Nat → Except OcaError Unit := fun _ => .error otherBindErr

/-- A getValid environment whose secret store read fails. -/
def badStoreEnv : GetValidEnv :=
  { storeGet := .error "store unreadable", parse := fun _ => .error "unused", now := 0
    refresh := { disc := fun _ => .error "net down", jit := fun _ => 1
                 grant := fun _ _ => .error "net down", saveResult := .ok (), now := 0 } }

/-- A stale record (expires_at within the renew buffer of now = 1000). -/
def staleToken : TokenRecord :=
  { access_token := some "A", refresh_token := some "R", expires_at := some 100 }

/-- A getValid environment in which the token is stale and every silent
refresh path fails at discovery. -/
def staleRefreshFailEnv : GetValidEnv :=
  { storeGet := .ok none, parse := fun _ => .error "unused", now := 1000
    refresh := { disc := fun _ => .error "net down", jit := fun _ => 1
                 grant := fun _ _ => .error "grant refused", saveResult := .ok (), now := 1000 } }

/-- A fresh record, valid far beyond the renew buffer at now = 100. -/
def freshToken : TokenRecord := { access_token := some "A", expires_at := some 10000 }

/-- A getValid environment whose store holds the fresh record. -/
def freshEnv : GetValidEnv :=
  { storeGet := .ok (some "json-blob"), parse := fun _ => .ok freshToken, now := 100
    refresh := { disc := fun _ => .error "net down", jit := fun _ => 1
                 grant := fun _ _ => .error "net down", saveResult := .ok (), now := 100 } }

/-! Theorems. -/

/-- Helper: an integer interval bound transfers to Math.round. -/
theorem roundBetween (x : ℚ) (lo hi : Int) (h1 : (lo : ℚ) ≤ x) (h2 : x ≤ (hi : ℚ)) :
    lo ≤ round x ∧ round x ≤ hi := by
  rw [round_eq]
  refine ⟨Int.le_floor.mpr (by linarith), ?_⟩
  have h : ⌊x + 1 / 2⌋ < hi + 1 := Int.floor_lt.mpr (by push_cast; linarith)
  omega

/-- C9: on every successful interactive login and every successful refresh,
the persisted record has expires_at computed locally as the current epoch
seconds plus the response expires_in; the response carries no absolute
expiry that could be used instead. -/
theorem expires_at_computed_locally (token : TokenRecord) (res : TokenEndpointResponse)
    (nowSec n : Int) (h : res.expires_in = some n) :
    (refreshNext token res nowSec).expires_at = some (nowSec + n) ∧
    (mkTokenSet res nowSec).expires_at = some (nowSec + n) := by
  constructor <;> simp [refreshNext, mkTokenSet, h]

/-- Witness for C9 at a concrete response and clock. -/
theorem expires_at_computed_locally_witness :
    (refreshNext {} fullResponse 1000).expires_at = some (1000 + 3600) ∧
    (mkTokenSet fullResponse 1000).expires_at = some (1000 + 3600) :=
  expires_at_computed_locally {} fullResponse 1000 3600 rfl

/-- C10: the record a successful tryRefresh persists and caches keeps the
previous refresh_token when the response omits it, and keeps the previous
expires_at when the response omits a numeric expires_in. -/
theorem refresh_keeps_old_refresh_token (token : TokenRecord) (renv : RefreshEnv)
    (cfg : DiscoveryConfig) (res : TokenEndpointResponse)
    (hd : renv.disc 0 = .ok cfg)
    (hg : renv.grant cfg token.refresh_token = .ok res)
    (hs : renv.saveResult = .ok ()) :
    (tryRefresh token renv).1 = some (refreshNext token res renv.now) ∧
    (res.refresh_token = none →
      (refreshNext token res renv.now).refresh_token = token.refresh_token) ∧
    (res.expires_in = none →
      (refreshNext token res renv.now).expires_at = token.expires_at) := by
  have hr : List.range' 1 ({} : RetryOpts).retries = [1, 2, 3] := rfl
  refine ⟨?_, ?_, ?_⟩
  · simp [tryRefresh, tryRefreshRun, discoveryWithRetry, hr, retryList, hd, hg, hs]
  · intro hrt
    simp [refreshNext, hrt, Option.orElse]
  · intro hei
    simp [refreshNext, hei]

/-- Witness for C10 at a response omitting both fields. -/
theorem refresh_keeps_old_refresh_token_witness :
    (tryRefresh sampleToken sampleRefreshEnv).1 =
      some (refreshNext sampleToken sampleResponseBare 5000) ∧
    (refreshNext sampleToken sampleResponseBare 5000).refresh_token = some "R1" ∧
    (refreshNext sampleToken sampleResponseBare 5000).expires_at = some 100 := by
  have h := refresh_keeps_old_refresh_token sampleToken sampleRefreshEnv sampleConfig
    sampleResponseBare rfl rfl rfl
  exact ⟨h.1, h.2.1 rfl, h.2.2 rfl⟩

/-- C1: a loginWithoutAutoOpen call arriving while a login task is in flight
(and getValid returned nothing) attaches to that same task — the state is
returned unchanged, so no second interactive flow is started and every
attached caller shares the one outcome of task i — and the finally handler
clears the in-flight reference on settlement, for success and failure alike. -/
theorem single_flight_login (s : LoginFlightState) (i : Nat) (h : s.inflight = some i) :
    loginWithoutAutoOpen none s = (.attached i, s) ∧
    (loginWithoutAutoOpen none s).2.started = s.started ∧
    (∀ o : LoginOutcome, (settleInflight s o).inflight = none) := by
  refine ⟨?_, ?_, fun o => rfl⟩ <;> simp [loginWithoutAutoOpen, h]

/-- Witness for C1 at a concrete in-flight state. -/
theorem single_flight_login_witness :
    loginWithoutAutoOpen none ⟨some 0, [0]⟩ = (.attached 0, ⟨some 0, [0]⟩) ∧
    (loginWithoutAutoOpen none (⟨some 0, [0]⟩ : LoginFlightState)).2.started = [0] ∧
    (∀ o : LoginOutcome, (settleInflight ⟨some 0, [0]⟩ o).inflight = none) :=
  single_flight_login ⟨some 0, [0]⟩ 0 rfl

/-- C4: exactly one callback request is honored per listener instance: a
matching callback request received in the bound state settles the promise
with the exchange outcome and closes the server (releasing the port) on both
the success (200) and the failure (400) path, and a closed listener
processes no further inbound request at all. -/
theorem single_callback_per_listener (exchange : String → Except String TokenEndpointResponse)
    (l : ListenerModel) (u : String) (t : TokenEndpointResponse) (er : String) :
    (l.phase = .bound → l.settled = none → pathOf u = "/callback" →
      (exchange u = .ok t →
        handleRequest exchange l (some u) =
          ⟨⟨.closed, some (.ok t)⟩, some (200, successPage), true⟩) ∧
      (exchange u = .error er →
        handleRequest exchange l (some u) =
          ⟨⟨.closed, some (.error er)⟩, some (400, failurePage), true⟩)) ∧
    (∀ req, l.phase = .closed → handleRequest exchange l req = ⟨l, none, false⟩) := by
  constructor
  · intro hp hs hpath
    constructor
    · intro hx
      simp [handleRequest, hp, hs, hpath, hx, settleOnce]
    · intro hx
      simp [handleRequest, hp, hs, hpath, hx, settleOnce]
  · intro req hp
    simp [handleRequest, hp]

/-- Witness for C4: one success redirect, one failure redirect, and a closed
listener ignoring a further redirect. -/
theorem single_callback_per_listener_witness :
    handleRequest (fun _ => .ok sampleResponseBare) ⟨.bound, none⟩ (some "/callback?code=x") =
      ⟨⟨.closed, some (.ok sampleResponseBare)⟩, some (200, successPage), true⟩ ∧
    handleRequest (fun _ => .error "bad code") ⟨.bound, none⟩ (some "/callback?code=y") =
      ⟨⟨.closed, some (.error "bad code")⟩, some (400, failurePage), true⟩ ∧
    handleRequest (fun _ => .ok sampleResponseBare)
        ⟨.closed, some (.ok sampleResponseBare)⟩ (some "/callback?code=z") =
      ⟨⟨.closed, some (.ok sampleResponseBare)⟩, none, false⟩ := by
  refine ⟨?_, ?_, ?_⟩
  · exact ((single_callback_per_listener (fun _ => .ok sampleResponseBare) ⟨.bound, none⟩
      "/callback?code=x" sampleResponseBare "e").1 rfl rfl (by decide)).1 rfl
  · exact ((single_callback_per_listener (fun _ => .error "bad code") ⟨.bound, none⟩
      "/callback?code=y" sampleResponseBare "bad code").1 rfl rfl (by decide)).2 rfl
  · exact (single_callback_per_listener (fun _ => .ok sampleResponseBare)
      ⟨.closed, some (.ok sampleResponseBare)⟩ "x" sampleResponseBare "e").2
      (some "/callback?code=z") rfl

/-- Helper: formatOcaError maps every EADDRINUSE-coded error to the
port-in-use message. -/
theorem formatOcaError_addrInUse (e : OcaError) (h : e.code = some "EADDRINUSE") :
    formatOcaError e = portInUseMessage := by
  simp [formatOcaError, h]

/-- Helper: when every candidate port rejects with an EADDRINUSE-coded
error, the loop tries them all and throws the port-in-use message. -/
theorem portLoopGo_allInUse (att : Nat → Except OcaError α) :
    ∀ (ports : List Nat) (lastE : OcaError), lastE.code = some "EADDRINUSE" →
    (∀ q ∈ ports, ∃ e, att q = .error e ∧ e.code = some "EADDRINUSE") →
    portLoopGo att ports (some lastE) = ⟨.error portInUseMessage, ports⟩ := by
  intro ports
  induction ports with
  | nil =>
    intro lastE hc _
    simp [portLoopGo, formatOcaError_addrInUse lastE hc]
  | cons p ps ih =>
    intro lastE _ hall
    obtain ⟨e, he, hec⟩ := hall p (List.mem_cons_self p ps)
    have hrest : ∀ q ∈ ps, ∃ e, att q = .error e ∧ e.code = some "EADDRINUSE" :=
      fun q hq => hall q (List.mem_cons_of_mem p hq)
    simp [portLoopGo, he, hec, ih e hec hrest]

/-- C5: the interactive login tries candidate ports in order: an
address-in-use bind failure closes the partially open server and advances to
the next candidate; any other bind error rejects immediately with no further
port tried; full exhaustion rejects with the terminal port-in-use message. -/
theorem port_fallback_policy (att : Nat → Except OcaError α)
    (p : Nat) (ps : List Nat) (e : OcaError) :
    (e.code = some "EADDRINUSE" →
      (onServerError e).serverClosed = true ∧ (onServerError e).rejectedWith = addrInUseReject) ∧
    (att p = .error e → e.code = some "EADDRINUSE" →
      portLoop att (p :: ps) =
        ⟨(portLoopGo att ps (some e)).outcome, p :: (portLoopGo att ps (some e)).tried⟩) ∧
    (att p = .error e → e.code ≠ some "EADDRINUSE" →
      portLoop att (p :: ps) = ⟨.error (formatOcaError e), [p]⟩) ∧
    ((∀ q ∈ p :: ps, ∃ eq, att q = .error eq ∧ eq.code = some "EADDRINUSE") →
      portLoop att (p :: ps) = ⟨.error portInUseMessage, p :: ps⟩) := by
  refine ⟨?_, ?_, ?_, ?_⟩
  · intro hc
    simp [onServerError, hc]
  · intro hatt hc
    simp [portLoop, portLoopGo, hatt, hc]
  · intro hatt hc
    have hb : (e.code == some "EADDRINUSE") = false := beq_eq_false_iff_ne.mpr hc
    simp [portLoop, portLoopGo, hatt, hb]
  · intro hall
    obtain ⟨e1, he1, hc1⟩ := hall p (List.mem_cons_self p ps)
    have hrest : ∀ q ∈ ps, ∃ e, att q = .error e ∧ e.code = some "EADDRINUSE" :=
      fun q hq => hall q (List.mem_cons_of_mem p hq)
    simp [portLoop, portLoopGo, he1, hc1, portLoopGo_allInUse att ps e1 hc1 hrest]

/-- Witness for C5: the handler closes on EADDRINUSE, full exhaustion on two
busy ports throws the port-in-use message after trying both, and a
non-EADDRINUSE bind error stops at the first port. -/
theorem port_fallback_policy_witness :
    (onServerError addrInUseReject).serverClosed = true ∧
    portLoop attAllInUse [8001, 8002] = ⟨.error portInUseMessage, [8001, 8002]⟩ ∧
    portLoop attOtherErr [8001, 8002] = ⟨.error (formatOcaError otherBindErr), [8001]⟩ := by
  refine ⟨?_, ?_, ?_⟩
  · exact ((port_fallback_policy attAllInUse 8001 [8002] addrInUseReject).1 rfl).1
  · exact (port_fallback_policy attAllInUse 8001 [8002] addrInUseReject).2.2.2
      (fun q _ => ⟨addrInUseReject, rfl, rfl⟩)
  · exact (port_fallback_policy attOtherErr 8001 [8002] otherBindErr).2.2.1 rfl (by decide)

/-- C7: with the default options (3 retries, 500 ms base, 2000 ms cap), an
operation failing on attempts 0 and 1 and succeeding on attempt 2 produces
exactly two waits, each equal to min(cap, base * 2 ^ attempt) * jitter
rounded to a millisecond and hence within one half and three halves of the
exponential value, and the third attempt result is returned as final. -/
theorem backoff_two_failures_then_success {α : Type} (op : Nat → Except String α)
    (jit : Nat → ℚ) (a : α) (e0 e1 : String)
    (h0 : op 0 = .error e0) (h1 : op 1 = .error e1) (h2 : op 2 = .ok a)
    (hj : ∀ n, 1 / 2 ≤ jit n ∧ jit n < 3 / 2) :
    (discoveryWithRetry op jit {}).result = .ok a ∧
    (discoveryWithRetry op jit {}).delays = [delayMs {} 0 (jit 0), delayMs {} 1 (jit 1)] ∧
    delayMs {} 0 (jit 0) = round ((500 : ℚ) * jit 0) ∧
    delayMs {} 1 (jit 1) = round ((1000 : ℚ) * jit 1) ∧
    250 ≤ round ((500 : ℚ) * jit 0) ∧ round ((500 : ℚ) * jit 0) ≤ 750 ∧
    500 ≤ round ((1000 : ℚ) * jit 1) ∧ round ((1000 : ℚ) * jit 1) ≤ 1500 := by
  have hr : List.range' 1 ({} : RetryOpts).retries = [1, 2, 3] := rfl
  obtain ⟨hj0l, hj0u⟩ := hj 0
  obtain ⟨hj1l, hj1u⟩ := hj 1
  have hb0 : backoffMs {} 0 = 500 := by norm_num [backoffMs]
  have hb1 : backoffMs {} 1 = 1000 := by norm_num [backoffMs]
  have hd0 : delayMs {} 0 (jit 0) = round ((500 : ℚ) * jit 0) := by rw [delayMs, hb0]
  have hd1 : delayMs {} 1 (jit 1) = round ((1000 : ℚ) * jit 1) := by rw [delayMs, hb1]
  have hw0 := roundBetween ((500 : ℚ) * jit 0) 250 750
    (by push_cast; linarith) (by push_cast; linarith)
  have hw1 := roundBetween ((1000 : ℚ) * jit 1) 500 1500
    (by push_cast; linarith) (by push_cast; linarith)
  refine ⟨?_, ?_, hd0, hd1, hw0.1, hw0.2, hw1.1, hw1.2⟩
  · simp [discoveryWithRetry, hr, retryList, h0, h1, h2]
  · simp [discoveryWithRetry, hr, retryList, h0, h1, h2]

/-- Witness for C7 at a concrete operation and unit jitter. -/
theorem backoff_two_failures_then_success_witness :
    (discoveryWithRetry (fun n => if n < 2 then .error "down" else .ok ()) unitJit {}).result =
      .ok () ∧
    (discoveryWithRetry (fun n => if n < 2 then .error "down" else .ok ()) unitJit {}).delays =
      [delayMs {} 0 (unitJit 0), delayMs {} 1 (unitJit 1)] ∧
    delayMs {} 0 (unitJit 0) = round ((500 : ℚ) * unitJit 0) ∧
    delayMs {} 1 (unitJit 1) = round ((1000 : ℚ) * unitJit 1) ∧
    250 ≤ round ((500 : ℚ) * unitJit 0) ∧ round ((500 : ℚ) * unitJit 0) ≤ 750 ∧
    500 ≤ round ((1000 : ℚ) * unitJit 1) ∧ round ((1000 : ℚ) * unitJit 1) ≤ 1500 :=
  backoff_two_failures_then_success (fun n => if n < 2 then .error "down" else .ok ())
    unitJit () "down" "down" rfl rfl rfl
    (fun _ => by constructor <;> norm_num [unitJit])

/-- Helper: when all four default attempts fail, discoveryWithRetry makes
exactly the attempts 0..3, sleeps three times, throws the fixed message, and
logs the error of the last attempt. -/
theorem discoveryWithRetry_allFail {α : Type} (op : Nat → Except String α) (jit : Nat → ℚ)
    (e0 e1 e2 e3 : String)
    (h0 : op 0 = .error e0) (h1 : op 1 = .error e1) (h2 : op 2 = .error e2)
    (h3 : op 3 = .error e3) :
    discoveryWithRetry op jit {} =
      ⟨.error discoveryFailureMessage, some e3, [0, 1, 2, 3],
        [delayMs {} 0 (jit 0), delayMs {} 1 (jit 1), delayMs {} 2 (jit 2)]⟩ := by
  have hr : List.range' 1 ({} : RetryOpts).retries = [1, 2, 3] := rfl
  simp [discoveryWithRetry, hr, retryList, h0, h1, h2, h3]

/-- C8 counterexample: at an operation failing every attempt with the error
boom, the caller receives the fixed proxy-guidance message, not the last
attempt error, which is only logged — the surfaced error differs from the
last operation error. -/
theorem retrier_substitutes_fixed_error :
    (discoveryWithRetry alwaysBoom unitJit {}).result = .error discoveryFailureMessage ∧
    (discoveryWithRetry alwaysBoom unitJit {}).lastErr = some "boom" ∧
    discoveryFailureMessage ≠ "boom" := by
  have h := discoveryWithRetry_allFail alwaysBoom unitJit "boom" "boom" "boom" "boom"
    rfl rfl rfl rfl
  rw [h]
  exact ⟨rfl, rfl, by decide⟩

/-- C8 amended: after the final failed attempt the retrier performs no
further attempt (exactly attempts 0..3 and three waits) and rejects with the
fixed discovery-failure message; the error of the last attempt is only
logged, not surfaced. -/
theorem retrier_final_failure {α : Type} (op : Nat → Except String α) (jit : Nat → ℚ)
    (err : Nat → String) (hfail : ∀ n, n ≤ 3 → op n = .error (err n)) :
    (discoveryWithRetry op jit {}).result = .error discoveryFailureMessage ∧
    (discoveryWithRetry op jit {}).lastErr = some (err 3) ∧
    (discoveryWithRetry op jit {}).calls = [0, 1, 2, 3] ∧
    (discoveryWithRetry op jit {}).delays.length = 3 := by
  have h := discoveryWithRetry_allFail op jit (err 0) (err 1) (err 2) (err 3)
    (hfail 0 (by omega)) (hfail 1 (by omega)) (hfail 2 (by omega)) (hfail 3 (by omega))
  rw [h]
  exact ⟨rfl, rfl, rfl, rfl⟩

/-- Witness for the amended C8 at a concrete always-failing operation. -/
theorem retrier_final_failure_witness :
    (discoveryWithRetry alwaysBoom unitJit {}).result = .error discoveryFailureMessage ∧
    (discoveryWithRetry alwaysBoom unitJit {}).lastErr = some "boom" ∧
    (discoveryWithRetry alwaysBoom unitJit {}).calls = [0, 1, 2, 3] ∧
    (discoveryWithRetry alwaysBoom unitJit {}).delays.length = 3 :=
  retrier_final_failure alwaysBoom unitJit (fun _ => "boom") (fun _ _ => rfl)

/-- Helper: the retry loop always invokes the discovery operation at its
first attempt index. -/
theorem retryList_calls_head {α : Type} (op : Nat → Except String α) (jit : Nat → ℚ)
    (opts : RetryOpts) (attempt : Nat) (l : List Nat) :
    (retryList op jit opts attempt l).2.1.head? = some attempt := by
  cases l with
  | nil => simp [retryList]
  | cons x xs => cases h : op attempt <;> simp [retryList, h]

/-- Helper: every discoveryWithRetry invocation performs a discovery network
call at attempt 0 — there is no cache short-circuit. -/
theorem discoveryWithRetry_calls_head {α : Type} (op : Nat → Except String α) (jit : Nat → ℚ)
    (opts : RetryOpts) : (discoveryWithRetry op jit opts).calls.head? = some 0 := by
  have h := retryList_calls_head op jit opts 0 (List.range' 1 opts.retries)
  unfold discoveryWithRetry
  rcases hr : retryList op jit opts 0 (List.range' 1 opts.retries) with ⟨res, cs, ds⟩
  rw [hr] at h
  cases res <;> simpa using h

/-- C6 counterexample: in an environment where every network call succeeds,
a first silent refresh succeeds — so discovery has succeeded once — yet the
very next refresh still issues a discovery network call (its discovery
attempt list is [0], not empty): the resolved document is not reused. -/
theorem discovery_refetched_every_refresh :
    (tryRefresh sampleToken fullRefreshEnv).1 =
      some (refreshNext sampleToken fullResponse 5000) ∧
    (tryRefresh sampleToken fullRefreshEnv).2.1 = [0] ∧
    (tryRefresh (refreshNext sampleToken fullResponse 5000) fullRefreshEnv).2.1 = [0] ∧
    ([0] : List Nat) ≠ [] := by
  refine ⟨rfl, rfl, rfl, by decide⟩

/-- Helper: a tryRefresh call reports exactly the discovery attempts of its
own fresh discoveryWithRetry invocation, whatever the later steps do. -/
theorem tryRefresh_discCalls (token : TokenRecord) (renv : RefreshEnv) :
    (tryRefresh token renv).2.1 = (discoveryWithRetry renv.disc renv.jit {}).calls := by
  unfold tryRefresh tryRefreshRun
  cases hres : (discoveryWithRetry renv.disc renv.jit ({} : RetryOpts)).result with
  | error e => simp [hres]
  | ok cfg =>
    cases hg : renv.grant cfg token.refresh_token with
    | error e => simp [hres, hg]
    | ok r =>
      cases hs : renv.saveResult with
      | error e => simp [hres, hg, hs]
      | ok u => simp [hres, hg, hs]

/-- C6 amended: no discovery cache exists — every silent refresh performs a
fresh discovery network call (attempt 0 is always invoked), and every
discoveryWithRetry invocation, interactive login included, starts with a
fresh network attempt. -/
theorem discovery_always_refetched (token : TokenRecord) (renv : RefreshEnv)
    {α : Type} (op : Nat → Except String α) (jit : Nat → ℚ) (opts : RetryOpts) :
    (tryRefresh token renv).2.1.head? = some 0 ∧
    (discoveryWithRetry op jit opts).calls.head? = some 0 := by
  refine ⟨?_, discoveryWithRetry_calls_head op jit opts⟩
  rw [tryRefresh_discCalls]
  exact discoveryWithRetry_calls_head renv.disc renv.jit {}

/-- C2: getValid never throws — every internal failure is recovered at the
try/catch site the source places around it and the call answers with an
empty result: an unreadable store or unparsable stored JSON loads as null; a
failed refresh body yields null; and a getValid over an empty cache with an
unreadable store, over a stale token whose silent refresh dies at discovery
(all four attempts), or whose refresh grant is refused, returns null rather
than an error (keeping the stale cache entry). -/
theorem get_valid_never_throws (env : GetValidEnv) (T : TokenRecord)
    (s st : String) (cfg : DiscoveryConfig) :
    (env.storeGet = .error s → load env = none) ∧
    (env.storeGet = .ok (some st) → st ≠ "" → env.parse st = .error s → load env = none) ∧
    ((tryRefreshRun T env.refresh).1 = .error s → (tryRefresh T env.refresh).1 = none) ∧
    (env.storeGet = .error s → (getValid none env).result = none) ∧
    (isValid T env.now = false → jsTruthyS T.refresh_token = true →
      (∀ n, n ≤ 3 → ∃ er, env.refresh.disc n = .error er) →
      (getValid (some T) env).result = none ∧ (getValid (some T) env).cached = some T) ∧
    (isValid T env.now = false → jsTruthyS T.refresh_token = true →
      env.refresh.disc 0 = .ok cfg → env.refresh.grant cfg T.refresh_token = .error s →
      (getValid (some T) env).result = none) := by
  have hr : List.range' 1 ({} : RetryOpts).retries = [1, 2, 3] := rfl
  refine ⟨?_, ?_, ?_, ?_, ?_, ?_⟩
  · intro h
    simp [load, loadE, h]
  · intro h1 h2 h3
    simp [load, loadE, h1, h2, h3]
  · intro h
    rcases hrun : tryRefreshRun T env.refresh with ⟨r, cs, g⟩
    rw [hrun] at h
    simp at h
    simp [tryRefresh, hrun, h]
  · intro h
    simp [getValid, load, loadE, h]
  · intro hv ht hdisc
    obtain ⟨er0, h0⟩ := hdisc 0 (by omega)
    obtain ⟨er1, h1⟩ := hdisc 1 (by omega)
    obtain ⟨er2, h2⟩ := hdisc 2 (by omega)
    obtain ⟨er3, h3⟩ := hdisc 3 (by omega)
    have hD := discoveryWithRetry_allFail env.refresh.disc env.refresh.jit er0 er1 er2 er3
      h0 h1 h2 h3
    refine ⟨?_, ?_⟩ <;> simp [getValid, hv, ht, tryRefresh, tryRefreshRun, hD]
  · intro hv ht hd0 hg
    have hD : discoveryWithRetry env.refresh.disc env.refresh.jit {} =
        ⟨.ok cfg, none, [0], []⟩ := by
      simp [discoveryWithRetry, hr, retryList, hd0]
    simp [getValid, hv, ht, tryRefresh, tryRefreshRun, hD, hg]

/-- Witness for C2 at concrete failing environments. -/
theorem get_valid_never_throws_witness :
    load badStoreEnv = none ∧
    (getValid none badStoreEnv).result = none ∧
    (getValid (some staleToken) staleRefreshFailEnv).result = none ∧
    (getValid (some staleToken) staleRefreshFailEnv).cached = some staleToken := by
  refine ⟨?_, ?_, ?_, ?_⟩
  · exact (get_valid_never_throws badStoreEnv {} "store unreadable" "" ⟨"d"⟩).1 rfl
  · exact (get_valid_never_throws badStoreEnv {} "store unreadable" "" ⟨"d"⟩).2.2.2.1 rfl
  · exact ((get_valid_never_throws staleRefreshFailEnv staleToken "x" "" ⟨"d"⟩).2.2.2.2.1
      (by decide) (by decide) (fun n _ => ⟨"net down", rfl⟩)).1
  · exact ((get_valid_never_throws staleRefreshFailEnv staleToken "x" "" ⟨"d"⟩).2.2.2.2.1
      (by decide) (by decide) (fun n _ => ⟨"net down", rfl⟩)).2

/-- C3: a token whose expires_at lies more than 180 seconds after the
current time is returned by getValid exactly as stored — the same record,
no field altered — with no discovery call and no refresh-grant call, whether
it sits in the in-process cache or is loaded from the store. -/
theorem valid_cached_token_returned_unchanged (env : GetValidEnv) (T : TokenRecord)
    (e : Int) (st : String)
    (hnow : 0 ≤ env.now) (hea : T.expires_at = some e) (hfresh : env.now + 180 < e) :
    getValid (some T) env = ⟨some T, some T, [], 0⟩ ∧
    (env.storeGet = .ok (some st) → st ≠ "" → env.parse st = .ok T →
      getValid none env = ⟨some T, some T, [], 0⟩) := by
  have hv : isValid T env.now = true := by
    simp only [isValid, hea, RENEW_TOKEN_BUFFER_SEC, Bool.and_eq_true, bne_iff_ne,
      decide_eq_true_eq, ne_eq]
    omega
  refine ⟨?_, ?_⟩
  · simp [getValid, hv]
  · intro h1 h2 h3
    simp [getValid, load, loadE, h1, h2, h3, hv]

/-- Witness for C3 at a concrete fresh record, through the cache and through
the store. -/
theorem valid_cached_token_returned_unchanged_witness :
    getValid (some freshToken) freshEnv = ⟨some freshToken, some freshToken, [], 0⟩ ∧
    getValid none freshEnv = ⟨some freshToken, some freshToken, [], 0⟩ := by
  have h := valid_cached_token_returned_unchanged freshEnv freshToken 10000 "json-blob"
    (by decide) rfl (by decide)
  exact ⟨h.1, h.2 rfl (by decide) rfl⟩
